import Mathlib

/-!
Verification of the Newton-Raphson root finder in `src/main.cpp`.

The C++ function `newton_raphson` works on IEEE doubles; we embed it over the
rationals `ℚ` (exact arithmetic as the idealization of `double`), translating
the literal `1e-12` to `1 / 10 ^ 12` and `size_t` to `ℕ`.  The `while` loop
`while (currentIteration <= maxIteration)` with a final `++currentIteration`
executes at most `maxIteration + 1` passes; we embed it as structural
recursion on the remaining-pass count `fuel = maxIteration + 1 - currentIteration`,
which starts at `maxIteration + 1`.
-/

/-- One pass of the loop body of `newton_raphson` from `src/main.cpp`
(lines 28-44), with `fuel` the number of loop passes still permitted by the
condition `currentIteration <= maxIteration`.  When the fuel runs out the
last computed `currentX` is returned (line 46). -/
def newton_go (func dervi : ℚ → ℚ) (tolerance : ℚ) : ℕ → ℚ → ℚ
  | 0, currentX => currentX
  | fuel + 1, currentX =>
    let previousX := currentX
    let functionValue := func previousX
    let derivativeValue := dervi previousX
    if |derivativeValue| < 1 / 10 ^ 12 then
      currentX
    else
      let nextX := previousX - functionValue / derivativeValue
      if |nextX - previousX| ≤ tolerance then
        nextX
      else
        newton_go func dervi tolerance fuel nextX

/-- Embedding of `newton_raphson` from `src/main.cpp` (lines 22-47): the loop
starts at `currentIteration = 0` and `currentX = initialGuess`, so it has
`maxIteration + 1` passes of fuel. -/
def newton_raphson (func dervi : ℚ → ℚ) (initialGuess tolerance : ℚ)
    (maxIteration : ℕ) : ℚ :=
  newton_go func dervi tolerance (maxIteration + 1) initialGuess

/-- Instrumented variant of `newton_go` that also counts how many
function/derivative evaluation pairs (`func(previousX)`, `dervi(previousX)`,
lines 32-33 of `src/main.cpp`) the loop performs. -/
def newton_go_count (func dervi : ℚ → ℚ) (tolerance : ℚ) : ℕ → ℚ → ℚ × ℕ
  | 0, currentX => (currentX, 0)
  | fuel + 1, currentX =>
    let previousX := currentX
    let functionValue := func previousX
    let derivativeValue := dervi previousX
    if |derivativeValue| < 1 / 10 ^ 12 then
      (currentX, 1)
    else
      let nextX := previousX - functionValue / derivativeValue
      if |nextX - previousX| ≤ tolerance then
        (nextX, 1)
      else
        let rest := newton_go_count func dervi tolerance fuel nextX
        (rest.1, rest.2 + 1)

/-- Result of `newton_raphson` together with the number of function/derivative
evaluation pairs it performs. -/
def newton_raphson_count (func dervi : ℚ → ℚ) (initialGuess tolerance : ℚ)
    (maxIteration : ℕ) : ℚ × ℕ :=
  newton_go_count func dervi tolerance (maxIteration + 1) initialGuess

/-- Modelled from the spec (section 4.1, algorithm steps 2-3): the loop of
`findRoot` with an explicit `iteration` counter, looping while
`iteration <= maxIterations` (inclusive), exactly as the spec words it.
This definition follows the spec text and is compared with the source
embedding `newton_raphson` to settle the refinement claim. -/
def findRoot_specLoop (f fPrime : ℚ → ℚ) (tolerance : ℚ)
    (maxIterations iteration : ℕ) (currentX : ℚ) : ℚ :=
  if iteration ≤ maxIterations then
    let previousX := currentX
    let fv := f previousX
    let dv := fPrime previousX
    if |dv| < 1 / 10 ^ 12 then
      currentX
    else
      let nextX := previousX - fv / dv
      if |nextX - previousX| ≤ tolerance then
        nextX
      else
        findRoot_specLoop f fPrime tolerance maxIterations (iteration + 1) nextX
  else
    currentX
termination_by maxIterations + 1 - iteration
decreasing_by simp_wf; omega

/-- Modelled from the spec (section 4.1, algorithm step 1): `findRoot`
initializes `currentX := initialGuess` and `iteration := 0` then runs the
loop. -/
def findRoot_spec (f fPrime : ℚ → ℚ) (initialGuess tolerance : ℚ)
    (maxIterations : ℕ) : ℚ :=
  findRoot_specLoop f fPrime tolerance maxIterations 0 initialGuess

/-- The pure Newton-Raphson update `x ↦ x - f(x) / fPrime(x)` (line 38 of
`src/main.cpp`). -/
def newtonStep (f fPrime : ℚ → ℚ) (x : ℚ) : ℚ :=
  x - f x / fPrime x

/-- The Newton iteration with only the near-zero-derivative guard: it stops on
the guard but has no convergence check.  Used to describe the behaviour of
`newton_raphson` when the convergence exit can never fire. -/
def guarded_iter (f fPrime : ℚ → ℚ) : ℕ → ℚ → ℚ
  | 0, x => x
  | fuel + 1, x =>
    if |fPrime x| < 1 / 10 ^ 12 then x
    else guarded_iter f fPrime fuel (x - f x / fPrime x)

/-- Unfolding equation for one loop pass of `newton_go` with fuel left. -/
theorem newton_go_succ (func dervi : ℚ → ℚ) (tolerance : ℚ) (fuel : ℕ) (x : ℚ) :
    newton_go func dervi tolerance (fuel + 1) x =
      if |dervi x| < 1 / 10 ^ 12 then x
      else if |(x - func x / dervi x) - x| ≤ tolerance then x - func x / dervi x
      else newton_go func dervi tolerance fuel (x - func x / dervi x) := rfl

/-- Unfolding equation for one loop pass of `newton_go_count`. -/
theorem newton_go_count_succ (func dervi : ℚ → ℚ) (tolerance : ℚ) (fuel : ℕ) (x : ℚ) :
    newton_go_count func dervi tolerance (fuel + 1) x =
      if |dervi x| < 1 / 10 ^ 12 then (x, 1)
      else if |(x - func x / dervi x) - x| ≤ tolerance then (x - func x / dervi x, 1)
      else ((newton_go_count func dervi tolerance fuel (x - func x / dervi x)).1,
            (newton_go_count func dervi tolerance fuel (x - func x / dervi x)).2 + 1) := rfl

/-- Unfolding equation for one pass of `guarded_iter` with fuel left. -/
theorem guarded_iter_succ (f fPrime : ℚ → ℚ) (fuel : ℕ) (x : ℚ) :
    guarded_iter f fPrime (fuel + 1) x =
      if |fPrime x| < 1 / 10 ^ 12 then x
      else guarded_iter f fPrime fuel (x - f x / fPrime x) := rfl

/-- The instrumented loop computes the same value as the plain one. -/
theorem newton_go_count_fst (func dervi : ℚ → ℚ) (tolerance : ℚ) :
    ∀ fuel x, (newton_go_count func dervi tolerance fuel x).1 =
      newton_go func dervi tolerance fuel x := by
  intro fuel
  induction fuel with
  | zero => intro x; rfl
  | succ n ih =>
    intro x
    rw [newton_go_count_succ, newton_go_succ]
    split_ifs with h1 h2
    · rfl
    · rfl
    · exact ih _

/-- The loop performs at most `fuel` evaluation pairs. -/
theorem newton_go_count_snd_le (func dervi : ℚ → ℚ) (tolerance : ℚ) :
    ∀ fuel x, (newton_go_count func dervi tolerance fuel x).2 ≤ fuel := by
  intro fuel
  induction fuel with
  | zero => intro x; exact Nat.le_refl 0
  | succ n ih =>
    intro x
    rw [newton_go_count_succ]
    split_ifs with h1 h2
    · exact Nat.succ_le_succ (Nat.zero_le n)
    · exact Nat.succ_le_succ (Nat.zero_le n)
    · exact Nat.succ_le_succ (ih _)

/-- The spec-worded loop with counter `iteration` agrees with the source
embedding driven by the remaining fuel `maxIterations + 1 - iteration`. -/
theorem findRoot_specLoop_eq_newton_go (f fPrime : ℚ → ℚ) (tolerance : ℚ)
    (maxIterations : ℕ) :
    ∀ fuel iteration x, iteration + fuel = maxIterations + 1 →
      findRoot_specLoop f fPrime tolerance maxIterations iteration x =
        newton_go f fPrime tolerance fuel x := by
  intro fuel
  induction fuel with
  | zero =>
    intro iteration x h
    rw [findRoot_specLoop, if_neg (by omega)]
    rfl
  | succ n ih =>
    intro iteration x h
    rw [findRoot_specLoop, if_pos (show iteration ≤ maxIterations by omega),
      newton_go_succ]
    dsimp only
    split_ifs with h1 h2
    · rfl
    · rfl
    · exact ih (iteration + 1) _ (by omega)

/-- Every value the loop can return is a Newton iterate of the initial guess. -/
theorem newton_go_eq_iterate (f fPrime : ℚ → ℚ) (tolerance : ℚ) :
    ∀ fuel x, ∃ k, k ≤ fuel ∧
      newton_go f fPrime tolerance fuel x = (newtonStep f fPrime)^[k] x := by
  intro fuel
  induction fuel with
  | zero => intro x; exact ⟨0, Nat.le_refl 0, rfl⟩
  | succ n ih =>
    intro x
    rw [newton_go_succ]
    split_ifs with h1 h2
    · exact ⟨0, Nat.zero_le _, rfl⟩
    · exact ⟨1, Nat.succ_le_succ (Nat.zero_le n), rfl⟩
    · obtain ⟨k, hk, hgo⟩ := ih (x - f x / fPrime x)
      refine ⟨k + 1, Nat.succ_le_succ hk, ?_⟩
      rw [hgo, Function.iterate_succ_apply]
      rfl

/-- With a negative tolerance the convergence exit can never fire, so the loop
coincides with the guard-only Newton iteration. -/
theorem newton_go_eq_guarded_iter (f fPrime : ℚ → ℚ) (tolerance : ℚ)
    (htol : tolerance < 0) :
    ∀ fuel x, newton_go f fPrime tolerance fuel x = guarded_iter f fPrime fuel x := by
  intro fuel
  induction fuel with
  | zero => intro x; rfl
  | succ n ih =>
    intro x
    rw [newton_go_succ, guarded_iter_succ]
    split_ifs with h1 h2
    · rfl
    · exact absurd (lt_of_le_of_lt (le_trans (abs_nonneg _) h2) htol) (lt_irrefl 0)
    · exact ih _

/-- C1: `findRoot` computes exactly the algorithm the spec describes: starting
from `currentX = initialGuess`, looping while `iteration ≤ maxIterations`
(inclusive), each pass saving `previousX`, evaluating `f` and `fPrime` there,
returning `currentX` if the derivative guard fires, otherwise updating
`currentX := previousX - fv / dv`, returning on `|currentX - previousX| ≤
tolerance`, incrementing `iteration` otherwise, and returning the last
computed `currentX` when the loop exits via the cap.  Formally, the source
embedding `newton_raphson` agrees with `findRoot_spec`, the definition
transcribed from the spec text, on all inputs. -/
theorem newton_raphson_eq_findRoot_spec (f fPrime : ℚ → ℚ)
    (initialGuess tolerance : ℚ) (maxIterations : ℕ) :
    newton_raphson f fPrime initialGuess tolerance maxIterations =
      findRoot_spec f fPrime initialGuess tolerance maxIterations := by
  rw [newton_raphson, findRoot_spec,
    findRoot_specLoop_eq_newton_go f fPrime tolerance maxIterations
      (maxIterations + 1) 0 initialGuess (by omega)]

/-- C2: `findRoot` terminates on every input (it is a total function of its
arguments by construction), and it performs at most `maxIterations + 1`
function/derivative evaluation pairs before returning: the instrumented run
`newton_raphson_count` returns the same value and its evaluation-pair count is
bounded by `maxIteration + 1`. -/
theorem newton_raphson_total_eval_bound (func dervi : ℚ → ℚ)
    (initialGuess tolerance : ℚ) (maxIteration : ℕ) :
    (newton_raphson_count func dervi initialGuess tolerance maxIteration).1 =
      newton_raphson func dervi initialGuess tolerance maxIteration ∧
    (newton_raphson_count func dervi initialGuess tolerance maxIteration).2 ≤
      maxIteration + 1 :=
  ⟨newton_go_count_fst func dervi tolerance (maxIteration + 1) initialGuess,
   newton_go_count_snd_le func dervi tolerance (maxIteration + 1) initialGuess⟩

/-- C3: whenever `|fPrime x| < 1e-12` holds for the current estimate `x` at
the start of a loop pass (any remaining fuel `k + 1`), the loop returns `x`
immediately without applying the update; in particular a call with
`initialGuess = x` returns `x` unchanged on the first iteration, covering the
case `fPrime(initialGuess) = 0` exactly. -/
theorem newton_raphson_derivative_guard (func dervi : ℚ → ℚ)
    (tolerance x : ℚ) (k maxIteration : ℕ)
    (h : |dervi x| < 1 / 10 ^ 12) :
    newton_go func dervi tolerance (k + 1) x = x ∧
    newton_raphson func dervi x tolerance maxIteration = x := by
  constructor
  · rw [newton_go_succ, if_pos h]
  · rw [newton_raphson, newton_go_succ, if_pos h]

/-- Witness for C3: the pair `f(x) = x² - 3`, `fPrime(x) = 0` has derivative
exactly `0` at the guess `2`, and the call returns `2` unchanged. -/
theorem newton_raphson_derivative_guard_witness :
    |(0 : ℚ)| < 1 / 10 ^ 12 ∧
    (newton_go (fun x => x * x - 3) (fun _ => 0) 1 (3 + 1) 2 = 2 ∧
     newton_raphson (fun x => x * x - 3) (fun _ => 0) 2 1 5 = 2) :=
  ⟨by norm_num,
   newton_raphson_derivative_guard (fun x => x * x - 3) (fun _ => 0) 1 2 3 5
     (by norm_num)⟩

/-- Out-of-fuel equation of the loop: the last computed value is returned. -/
theorem newton_go_zero (func dervi : ℚ → ℚ) (tolerance : ℚ) (x : ℚ) :
    newton_go func dervi tolerance 0 x = x := rfl

/-- C4: with `maxIterations = 0` the procedure performs exactly one
function/derivative evaluation pair, and it returns
`initialGuess - f(initialGuess) / fPrime(initialGuess)` unless the derivative
guard `|fPrime(initialGuess)| < 1e-12` fires first, in which case it returns
`initialGuess`. -/
theorem newton_raphson_maxIteration_zero (func dervi : ℚ → ℚ)
    (initialGuess tolerance : ℚ) :
    newton_raphson func dervi initialGuess tolerance 0 =
      (if |dervi initialGuess| < 1 / 10 ^ 12 then initialGuess
       else initialGuess - func initialGuess / dervi initialGuess) ∧
    (newton_raphson_count func dervi initialGuess tolerance 0).2 = 1 := by
  constructor
  · rw [newton_raphson, newton_go_succ]
    split_ifs with h1 h2
    · rfl
    · rfl
    · rfl
  · rw [newton_raphson_count, newton_go_count_succ]
    split_ifs with h1 h2
    · rfl
    · rfl
    · rfl

/-- C5: for `f(x) = x - 5`, `fPrime(x) = 1`, `initialGuess = 0`,
`tolerance = 1e-10`, `maxIterations = 10`, the call returns exactly `5`; the
single Newton update of the first pass already lands on `5` and the next pass
confirms convergence, so exactly two evaluation pairs are performed and the
loop returns while the iteration counter is `1`, i.e. after one completed
iteration. -/
theorem newton_raphson_linear_scenario :
    newton_raphson (fun x => x - 5) (fun _ => 1) 0 (1 / 10 ^ 10) 10 = 5 ∧
    (newton_raphson_count (fun x => x - 5) (fun _ => 1) 0 (1 / 10 ^ 10) 10).2 = 2 := by
  constructor
  · rw [newton_raphson, newton_go_succ]
    norm_num
    show newton_go _ _ _ (9 + 1) 5 = 5
    rw [newton_go_succ]
    norm_num
  · rw [newton_raphson_count, newton_go_count_succ]
    norm_num
    show (newton_go_count _ _ _ (9 + 1) 5).2 + 1 = 2
    rw [newton_go_count_succ]
    norm_num

/-- C6: `findRoot` is total and never signals failure: on every input it
returns a value, and that value is always a Newton iterate of the initial
guess (the best available approximation after at most `maxIterations + 1`
updates); no error state exists in the procedure. -/
theorem newton_raphson_returns_iterate (func dervi : ℚ → ℚ)
    (initialGuess tolerance : ℚ) (maxIteration : ℕ) :
    ∃ k, k ≤ maxIteration + 1 ∧
      newton_raphson func dervi initialGuess tolerance maxIteration =
        (newtonStep func dervi)^[k] initialGuess :=
  newton_go_eq_iterate func dervi tolerance (maxIteration + 1) initialGuess

/-- C7 counterexample: for `f ≡ 1`, `fPrime ≡ 1`, `initialGuess = 0`,
`tolerance = 1/2`, `maxIterations = 0`, the first call exits via the
iteration cap with `x̂ = -1`, and calling again with `initialGuess = x̂`
returns `-2`, which is at distance `1 > tolerance` from `x̂`: idempotence
fails for a result that was not near a fixed point. -/
theorem newton_raphson_idempotence_counterexample :
    ¬ (|newton_raphson (fun _ => 1) (fun _ => 1)
          (newton_raphson (fun _ => 1) (fun _ => 1) 0 (1 / 2) 0) (1 / 2) 0 -
        newton_raphson (fun _ => 1) (fun _ => 1) 0 (1 / 2) 0| ≤ 1 / 2) := by
  have h1 : newton_raphson (fun _ : ℚ => (1 : ℚ)) (fun _ => 1) 0 (1 / 2) 0 = -1 := by
    rw [newton_raphson, newton_go_succ]
    norm_num [newton_go_zero]
  have h2 : newton_raphson (fun _ : ℚ => (1 : ℚ)) (fun _ => 1) (-1) (1 / 2) 0 = -2 := by
    rw [newton_raphson, newton_go_succ]
    norm_num [newton_go_zero]
  rw [h1, h2]
  norm_num

/-- C7 amended: idempotence near a fixed point holds when the returned value
`x̂` actually is (numerically) a near-fixed point of the Newton update: if
`tolerance ≥ 0` and either the derivative guard fires at `x̂` or the Newton
step from `x̂` has size `|f(x̂)/fPrime(x̂)| ≤ tolerance`, then calling
`findRoot` with `initialGuess = x̂` and the same `f`, `fPrime`, `tolerance`
returns a value within `tolerance` of `x̂`. -/
theorem newton_raphson_idempotent_near_fixed_point (func dervi : ℚ → ℚ)
    (xhat tolerance : ℚ) (maxIteration : ℕ) (htol : 0 ≤ tolerance)
    (h : |dervi xhat| < 1 / 10 ^ 12 ∨ |func xhat / dervi xhat| ≤ tolerance) :
    |newton_raphson func dervi xhat tolerance maxIteration - xhat| ≤ tolerance := by
  rw [newton_raphson, newton_go_succ]
  by_cases hg : |dervi xhat| < 1 / 10 ^ 12
  · rw [if_pos hg]
    simpa using htol
  · rw [if_neg hg]
    have hs : |func xhat / dervi xhat| ≤ tolerance := h.resolve_left hg
    have hcond : |(xhat - func xhat / dervi xhat) - xhat| ≤ tolerance := by
      have he : (xhat - func xhat / dervi xhat) - xhat = -(func xhat / dervi xhat) := by
        ring
      rw [he, abs_neg]
      exact hs
    rw [if_pos hcond]
    exact hcond

/-- Witness for the amended C7: `f ≡ 0`, `fPrime ≡ 1`, `x̂ = 3`,
`tolerance = 1`: the re-call stays within tolerance of `x̂`. -/
theorem newton_raphson_idempotent_near_fixed_point_witness :
    (0 : ℚ) ≤ 1 ∧ |(0 : ℚ) / 1| ≤ 1 ∧
    |newton_raphson (fun _ => 0) (fun _ => 1) 3 1 4 - 3| ≤ 1 :=
  ⟨by norm_num, by norm_num,
   newton_raphson_idempotent_near_fixed_point (fun _ => 0) (fun _ => 1) 3 1 4
     (by norm_num) (Or.inr (by norm_num))⟩

/-- C8: `findRoot` is deterministic and side-effect free.  The embedding is a
pure function, so two calls with identical arguments agree definitionally;
the theorem records the stronger congruence: the result depends only on the
input-output behaviour of the two callables (assumed pure), not on their
identity. -/
theorem newton_raphson_extensional (f₁ f₂ g₁ g₂ : ℚ → ℚ)
    (initialGuess tolerance : ℚ) (maxIteration : ℕ)
    (hf : ∀ x, f₁ x = f₂ x) (hg : ∀ x, g₁ x = g₂ x) :
    newton_raphson f₁ g₁ initialGuess tolerance maxIteration =
      newton_raphson f₂ g₂ initialGuess tolerance maxIteration := by
  rw [funext hf, funext hg]

/-- Witness for C8: two syntactically different but pointwise equal pairs of
callables produce the same result. -/
theorem newton_raphson_extensional_witness :
    newton_raphson (fun x => x - 5) (fun _ => 1) 0 1 3 =
      newton_raphson (fun x => x + -5) (fun _ => 2 - 1) 0 1 3 :=
  newton_raphson_extensional (fun x => x - 5) (fun x => x + -5) (fun _ => 1)
    (fun _ => 2 - 1) 0 1 3 (fun x => by ring) (fun x => by norm_num)

/-- C9: if `f(initialGuess) = 0`, `|fPrime(initialGuess)| ≥ 1e-12` and
`tolerance ≥ 0`, then `findRoot` returns `initialGuess` exactly: the first
update computes `initialGuess - 0 / dv = initialGuess` and the convergence
check `|currentX - previousX| ≤ tolerance` fires on the first pass. -/
theorem newton_raphson_root_initial_guess (func dervi : ℚ → ℚ)
    (initialGuess tolerance : ℚ) (maxIteration : ℕ)
    (hroot : func initialGuess = 0)
    (hderiv : 1 / 10 ^ 12 ≤ |dervi initialGuess|)
    (htol : 0 ≤ tolerance) :
    newton_raphson func dervi initialGuess tolerance maxIteration =
      initialGuess := by
  rw [newton_raphson, newton_go_succ, if_neg (not_lt.mpr hderiv), hroot]
  simp [htol]

/-- Witness for C9: `f(x) = x - 5` vanishes at the guess `5`, the derivative
is `1`, and the call returns `5` even with `tolerance = 0`. -/
theorem newton_raphson_root_initial_guess_witness :
    (5 : ℚ) - 5 = 0 ∧ (1 : ℚ) / 10 ^ 12 ≤ |(1 : ℚ)| ∧ (0 : ℚ) ≤ 0 ∧
    newton_raphson (fun x => x - 5) (fun _ => 1) 5 0 7 = 5 :=
  ⟨by norm_num, by norm_num, le_refl 0,
   newton_raphson_root_initial_guess (fun x => x - 5) (fun _ => 1) 5 0 7
     (by norm_num) (by norm_num) (le_refl 0)⟩

/-- C10: with a negative tolerance the convergence exit can never trigger
(successive-iterate distances are nonnegative), so `findRoot` returns either
via the derivative guard or, after exhausting all `maxIterations + 1` passes,
the last Newton iterate: the run coincides with the guard-only iteration
`guarded_iter` driven for `maxIterations + 1` steps. -/
theorem newton_raphson_negative_tolerance (func dervi : ℚ → ℚ)
    (initialGuess tolerance : ℚ) (maxIteration : ℕ) (htol : tolerance < 0) :
    newton_raphson func dervi initialGuess tolerance maxIteration =
      guarded_iter func dervi (maxIteration + 1) initialGuess :=
  newton_go_eq_guarded_iter func dervi tolerance htol (maxIteration + 1)
    initialGuess

/-- Witness for C10: with `tolerance = -1` a one-pass run equals the
guard-only iteration. -/
theorem newton_raphson_negative_tolerance_witness :
    (-1 : ℚ) < 0 ∧
    newton_raphson (fun _ => 1) (fun _ => 1) 0 (-1) 0 =
      guarded_iter (fun _ => 1) (fun _ => 1) (0 + 1) 0 :=
  ⟨by norm_num,
   newton_raphson_negative_tolerance (fun _ => 1) (fun _ => 1) 0 (-1) 0
     (by norm_num)⟩
